import Mathlib

/-!
Shallow embedding of the SOC-Pi network-monitor core (src/v15/dashboard15.py,
with src/v12/dashboard12.py agreeing on the shared functions).  Python
dicts/lists/strings are modelled by Lean association lists, lists and
`String`; python set operations on port lists are modelled through list
membership and `List.toFinset`.  External effects (iptables invocations,
the JSON quarantine file) are modelled as explicit state threaded through
the functions; a rule-insertion/removal command issued as root with
iptables present is modelled as succeeding, which is the environment the
idempotence and cleanup properties speak about.
-/

namespace SocPi

/-- Critical-risk port set `RISKY_PORTS_CRITICAL` (dashboard15.py line 110): telnet, rdp, vnc, smb. -/
def RISKY_PORTS_CRITICAL : List String := ["23", "2323", "3389", "5900", "445"]

/-- Medium-risk port set `RISKY_PORTS_MEDIUM` (dashboard15.py line 111): ssh/ftp/admin/db. -/
def RISKY_PORTS_MEDIUM : List String := ["22", "21", "8080", "8443", "3306", "5432"]

/-- Python `(s or "").strip().lower() in ("", "unknown")`: the OS guess is
missing or unknown. -/
def osUnknown (os_guess : String) : Bool :=
  os_guess.trim.toLower = "" || os_guess.trim.toLower = "unknown"

/-- Risk classifier `compute_risk` (dashboard15.py lines 1000-1012).  Note the source checks
`state == "OFFLINE"` immediately after `quarantined`, before any port test. -/
def compute_risk (open_ports : List String) (os_guess : String)
    (state : String) (quarantined : Bool) : String :=
  if quarantined then "CRITICAL"
  else if state = "OFFLINE" then "MEDIUM"
  else if open_ports.any (fun p => RISKY_PORTS_CRITICAL.contains p) then "CRITICAL"
  else if open_ports.any (fun p => RISKY_PORTS_MEDIUM.contains p) then "MEDIUM"
  else if osUnknown os_guess then "MEDIUM"
  else "LOW"

/-- The diffable fields of an inventory record / baseline entry, plus the
fields the scan cycle and offline sweeper maintain (`device_inventory`
values and `baseline` values, dashboard15.py lines 1668-1718).  Presentation
fields (display name, findings text, services strings) are elided. -/
structure Record where
  state : String
  risk : String
  ports : List String
  vendor : String
  hostname : String
  os : String
  quarantined : Bool
  last_seen_epoch : Nat
deriving Repr, DecidableEq

/-- One emitted event: kind, severity, and—for `PORT_CHANGE`—the added and
removed port lists from the details dict.  Other detail entries (ip, mac,
from/to strings, titles) are presentation only and elided. -/
structure Event where
  kind : String
  severity : String
  added : List String
  removed : List String
deriving Repr, DecidableEq

/-- Python `sorted(a_set - b_set)` on port strings: the ports of `a` not in
`b`, without duplicates, in ascending string order (insertion sort models
the built-in sort). -/
def pySortedSetDiff (a b : List String) : List String :=
  List.insertionSort (fun x y : String => x ≤ y)
    (a.dedup.filter (fun p => ¬ (p ∈ b)))

/-- Diff engine `diff_and_emit_events` (dashboard15.py lines 1329-1402), as the list of
events the call appends to the log, in emission order. -/
def diff_and_emit_events (curr : Record) (prev : Option Record) : List Event :=
  match prev with
  | none => [⟨"NEW_DEVICE", curr.risk, [], []⟩]
  | some p =>
    (if p.state ≠ curr.state then
      [⟨"STATE_CHANGE", if curr.state = "OFFLINE" then "MEDIUM" else "INFO", [], []⟩]
     else []) ++
    (if p.risk ≠ curr.risk ∧ curr.state ≠ "OFFLINE" then
      [⟨"RISK_CHANGE", if curr.risk = "CRITICAL" then "CRITICAL" else "MEDIUM", [], []⟩]
     else []) ++
    (if p.ports.toFinset ≠ curr.ports.toFinset ∧ curr.state ≠ "OFFLINE" then
      let added := pySortedSetDiff curr.ports p.ports
      let removed := pySortedSetDiff p.ports curr.ports
      [⟨"PORT_CHANGE",
        if added.any (fun p => RISKY_PORTS_CRITICAL.contains p) then "CRITICAL" else "MEDIUM",
        added, removed⟩]
     else []) ++
    (if p.vendor ≠ "" ∧ curr.vendor ≠ "" ∧ p.vendor ≠ curr.vendor then
      [⟨"VENDOR_CHANGE", "MEDIUM", [], []⟩]
     else []) ++
    (if p.hostname ≠ curr.hostname ∧ curr.hostname ≠ "" then
      [⟨"HOSTNAME_CHANGE", "INFO", [], []⟩]
     else []) ++
    (if p.os ≠ curr.os ∧ curr.os ≠ "" ∧ curr.os ≠ "Unknown" then
      [⟨"OS_CHANGE", "MEDIUM", [], []⟩]
     else [])

/-- A persisted quarantine record (dashboard15.py lines 1966, 1978):
timestamp, ip, mac, reason, optional note. -/
structure QRec where
  ts : String
  ip : String
  mac : String
  reason : String
  note : String
deriving Repr, DecidableEq

/-- The quarantine store `quarantine.json`: a python dict key → record,
modelled as an insertion-ordered association list. -/
abbrev QStore := List (String × QRec)

/-- The keys of the store (python `k in q`). -/
def qkeys (q : QStore) : List String := q.map Prod.fst

/-- Python dict membership test. -/
def qmem (q : QStore) (k : String) : Bool := (qkeys q).contains k

/-- Python `q[k] = v`: replace the value under an existing key, else append. -/
def qset (q : QStore) (k : String) (v : QRec) : QStore :=
  if qmem q k then q.map (fun p => if p.1 = k then (k, v) else p) else q ++ [(k, v)]

/-- Python `q.pop(k, None)`: drop the entry under `k` if present. -/
def qpop (q : QStore) (k : String) : QStore := q.filter (fun p => p.1 ≠ k)

/-- Quarantine check `is_quarantined` (dashboard15.py lines 1144-1150): a host is quarantined
if its uppercased mac is a key, or `"IP:"+ip` is a key; empty/missing
identifiers are falsy and skipped. -/
def is_quarantined (q : QStore) (ip : String) (mac : Option String) : Bool :=
  (match mac with
   | some m => m ≠ "" && qmem q m.toUpper
   | none => false) ||
  (ip ≠ "" && qmem q ("IP:" ++ ip))

/-- The host firewall: the source ips with a DROP rule, per chain, head =
most recently inserted (`iptables -I` prepends). -/
structure Firewall where
  input : List String
  forward : List String
deriving Repr, DecidableEq

/-- Rule lookup `_iptables_rule_exists` (lines 1098-1101) against the modelled chain. -/
def iptables_rule_exists (chain : List String) (ip : String) : Bool :=
  chain.contains ip

/-- Firewall block `ips_block_ip` (dashboard15.py lines 1104-1125).  `isRoot` models
`os.geteuid() == 0`, `hasIpt` models `_iptables_available()`; a rule
insertion performed as root with iptables present is modelled as
succeeding.  Returns (ok, message, firewall after the call). -/
def ips_block_ip (isRoot hasIpt : Bool) (fw : Firewall) (ip : String) :
    Bool × String × Firewall :=
  if ip = "" then (false, "Missing IP.", fw)
  else if ¬isRoot then
    (false, "Must run as root (sudo) to apply firewall rules.", fw)
  else if ¬hasIpt then (false, "iptables not found.", fw)
  else
    let fw1 := if iptables_rule_exists fw.input ip then fw
               else { fw with input := ip :: fw.input }
    let fw2 := if iptables_rule_exists fw1.forward ip then fw1
               else { fw1 with forward := ip :: fw1.forward }
    (true, "Quarantined from Pi (iptables DROP).", fw2)

/-- One pass of the removal loop body (lines 1137-1139): `iptables -D`
deletes the first matching rule in each chain, a no-op when none matches. -/
def unblock_once (fw : Firewall) (ip : String) : Firewall :=
  { input := fw.input.erase ip, forward := fw.forward.erase ip }

/-- Firewall unblock `ips_unblock_ip` (dashboard15.py lines 1128-1141): six best-effort
delete passes, then unconditional success report. -/
def ips_unblock_ip (isRoot hasIpt : Bool) (fw : Firewall) (ip : String) :
    Bool × String × Firewall :=
  if ip = "" then (false, "Missing IP.", fw)
  else if ¬isRoot then
    (false, "Must run as root (sudo) to remove firewall rules.", fw)
  else if ¬hasIpt then (false, "iptables not found.", fw)
  else
    (true, "Unquarantined (attempted rule removal).",
      Nat.iterate (fun f => unblock_once f ip) 6 fw)

/-- HTTP-level outcome of an IPS endpoint: the `ok` flag, the status code,
and the message returned to the caller. -/
structure ApiOut where
  ok : Bool
  status : Nat
  msg : String
deriving Repr, DecidableEq

/-- Endpoint `api_ips_quarantine` (dashboard15.py lines 1949-1987).  Inputs are the
request fields after `(body.get(..) or "").strip()`; `now` stands for
`now_ts()`.  Returns the response and the firewall / quarantine store
after the call.  (The events it also emits are not modelled.) -/
def api_ips_quarantine (isRoot hasIpt : Bool) (now : String)
    (ip mac reason0 : String) (fw : Firewall) (q : QStore) :
    ApiOut × Firewall × QStore :=
  let reason := if reason0 = "" then "manual" else reason0
  if ip = "" ∧ mac = "" then (⟨false, 400, "Missing ip/mac"⟩, fw, q)
  else
    let key := if mac ≠ "" then mac.toUpper else "IP:" ++ ip
    if ip = "" then
      (⟨true, 200, "Recorded quarantine (MAC-only). Block at router/AP recommended."⟩,
        fw,
        qset q key ⟨now, "", mac, reason,
          "MAC-only; block at router/AP for full enforcement"⟩)
    else
      let r := ips_block_ip isRoot hasIpt fw ip
      if r.1 then
        (⟨true, 200, "Quarantined from Pi (iptables DROP)."⟩, r.2.2,
          qset q key ⟨now, ip, mac, reason, ""⟩)
      else (⟨false, 400, r.2.1⟩, r.2.2, q)

/-- Endpoint `api_ips_unquarantine` (dashboard15.py lines 1990-2013): best-effort
rule removal when an ip is given, then the record is popped regardless. -/
def api_ips_unquarantine (isRoot hasIpt : Bool) (ip mac : String)
    (fw : Firewall) (q : QStore) : ApiOut × Firewall × QStore :=
  if ip = "" ∧ mac = "" then (⟨false, 400, "Missing ip/mac"⟩, fw, q)
  else
    let key := if mac ≠ "" then mac.toUpper else "IP:" ++ ip
    let r := if ip ≠ "" then ips_unblock_ip isRoot hasIpt fw ip
             else (true, "Removed record (MAC-only).", fw)
    (⟨r.1, 200, r.2.1⟩, r.2.2, qpop q key)

/-- The `osmatch` scan of `nmap_profile_xml` (dashboard15.py lines
1241-1251): candidates are (name, parsed accuracy) pairs in document order;
starting from `best = None, best_acc = -1`, a candidate replaces the best
only when its accuracy is strictly greater. -/
def select_os_aux : List (String × Int) → Option String → Int → Option String
  | [], best, _ => best
  | (name, acc) :: ms, best, best_acc =>
    if acc > best_acc then select_os_aux ms (some name) acc
    else select_os_aux ms best best_acc

/-- The resolved best OS match over the candidate list. -/
def select_os (ms : List (String × Int)) : Option String :=
  select_os_aux ms none (-1)

/-- The final `os_guess` (line 1250-1251): `"Unknown"` unless a best match
with a non-empty name was found. -/
def os_guess_of (ms : List (String × Int)) : String :=
  match select_os ms with
  | some best => if best ≠ "" then best else "Unknown"
  | none => "Unknown"

/-- The maximum accuracy over the candidates, seeded with the source's
initial `best_acc = -1`. -/
def maxAcc (ms : List (String × Int)) : Int :=
  ms.foldr (fun m acc => max m.2 acc) (-1)

/-- The per-host record construction of the scan cycle (dashboard15.py
lines 1649-1697): state is always `"ONLINE"`, the quarantined flag comes
from `is_quarantined`, and risk from `compute_risk` on the observed ports
and OS.  Device-type, findings, alias and timestamp bookkeeping are elided
from the record's modelled fields. -/
def scan_device (qstore : QStore) (ip : String) (mac : Option String)
    (open_ports : List String) (os : String) (vendor hostname : String)
    (now_epoch : Nat) : Record :=
  let qd := is_quarantined qstore ip mac
  { state := "ONLINE"
    risk := compute_risk open_ports os "ONLINE" qd
    ports := open_ports
    vendor := vendor
    hostname := hostname
    os := os
    quarantined := qd
    last_seen_epoch := now_epoch }

/-- The end-of-cycle OFFLINE risk adjustment applied to each published
record (dashboard15.py lines 1746-1748): OFFLINE forces risk MEDIUM unless
the device is quarantined. -/
def offline_adjust (d : Record) : Record :=
  if d.state = "OFFLINE" ∧ ¬d.quarantined then { d with risk := "MEDIUM" } else d

/-- One device's step of the Offline Sweeper (dashboard15.py lines
1722-1738), run at end-of-cycle over the inventory: when the elapsed time
since last-seen reaches `offlineAfter` and the device is not already
OFFLINE, flip it to OFFLINE, diff a baseline-shaped OFFLINE copy against
the baseline entry (`prev if prev else None`), and mark the baseline entry
OFFLINE.  Returns (updated device, updated baseline entry, emitted
events). -/
def sweep_device (now offlineAfter : Nat) (d : Record) (prev : Option Record) :
    Record × Option Record × List Event :=
  if offlineAfter ≤ now - d.last_seen_epoch ∧ d.state ≠ "OFFLINE" then
    let d2 := { d with state := "OFFLINE" }
    match prev with
    | some p =>
      let curr := { p with state := "OFFLINE" }
      (d2, some { p with state := "OFFLINE" }, diff_and_emit_events curr (some p))
    | none =>
      -- `baseline.get(k, {})` is empty and falsy: the diff sees prev=None
      -- and the baseline is left without an entry for the key.
      let curr : Record :=
        { state := "OFFLINE", risk := "MEDIUM", ports := [], vendor := "",
          hostname := "", os := "", quarantined := false, last_seen_epoch := 0 }
      (d2, none, diff_and_emit_events curr none)
  else (d, prev, [])

/-! ## Theorems -/

/-- C1 (counterexample): the claim says a non-quarantined OFFLINE device
with an open port in the CRITICAL-risk set gets risk CRITICAL; on the code,
port 445 open on an OFFLINE, non-quarantined device yields MEDIUM, because
`compute_risk` tests `state == "OFFLINE"` before any port test. -/
theorem compute_risk_offline_critical_port_counterexample :
    compute_risk ["445"] "Linux 5.4" "OFFLINE" false = "MEDIUM" ∧
    compute_risk ["445"] "Linux 5.4" "OFFLINE" false ≠ "CRITICAL" := by
  constructor
  · rfl
  · decide

/-- C1 (amended): `compute_risk` evaluates its triggers with quarantined
first, then OFFLINE (regardless of ports or OS), then the CRITICAL-risk
port set, then the MEDIUM-risk port set, then unknown/empty OS, else LOW. -/
theorem compute_risk_branch_order (ports : List String) (os state : String) :
    (∀ q : Bool, q = true → compute_risk ports os state q = "CRITICAL") ∧
    (state = "OFFLINE" → compute_risk ports os state false = "MEDIUM") ∧
    (state ≠ "OFFLINE" → (∃ p ∈ ports, p ∈ RISKY_PORTS_CRITICAL) →
      compute_risk ports os state false = "CRITICAL") ∧
    (state ≠ "OFFLINE" → (∀ p ∈ ports, p ∉ RISKY_PORTS_CRITICAL) →
      (∃ p ∈ ports, p ∈ RISKY_PORTS_MEDIUM) →
      compute_risk ports os state false = "MEDIUM") ∧
    (state ≠ "OFFLINE" →
      (∀ p ∈ ports, p ∉ RISKY_PORTS_CRITICAL ∧ p ∉ RISKY_PORTS_MEDIUM) →
      osUnknown os = true → compute_risk ports os state false = "MEDIUM") ∧
    (state ≠ "OFFLINE" →
      (∀ p ∈ ports, p ∉ RISKY_PORTS_CRITICAL ∧ p ∉ RISKY_PORTS_MEDIUM) →
      osUnknown os = false → compute_risk ports os state false = "LOW") := by
  refine ⟨fun q hq => by simp [compute_risk, hq], fun hs => by simp [compute_risk, hs],
    fun hs hcrit => ?_, fun hs hnc hmed => ?_, fun hs hn hu => ?_, fun hs hn hu => ?_⟩
  · simp [compute_risk, hs, hcrit]
  · have hc : ¬ ∃ p ∈ ports, p ∈ RISKY_PORTS_CRITICAL := by
      simpa using hnc
    simp [compute_risk, hs, hc, hmed]
  · have hc : ¬ ∃ p ∈ ports, p ∈ RISKY_PORTS_CRITICAL := by
      simpa using fun p hp => (hn p hp).1
    have hm : ¬ ∃ p ∈ ports, p ∈ RISKY_PORTS_MEDIUM := by
      simpa using fun p hp => (hn p hp).2
    simp [compute_risk, hs, hc, hm, hu]
  · have hc : ¬ ∃ p ∈ ports, p ∈ RISKY_PORTS_CRITICAL := by
      simpa using fun p hp => (hn p hp).1
    have hm : ¬ ∃ p ∈ ports, p ∈ RISKY_PORTS_MEDIUM := by
      simpa using fun p hp => (hn p hp).2
    simp [compute_risk, hs, hc, hm, hu]

/-- C1 amended claim witnessed at concrete inputs: an OFFLINE device with
port 445 open gets MEDIUM, a quarantined one CRITICAL, and an ONLINE
device with port 445 open gets CRITICAL. -/
theorem compute_risk_branch_order_witness :
    compute_risk ["445"] "Linux 5.4" "OFFLINE" false = "MEDIUM" ∧
    compute_risk ["445"] "Linux 5.4" "OFFLINE" true = "CRITICAL" ∧
    compute_risk ["445"] "Linux 5.4" "ONLINE" false = "CRITICAL" :=
  ⟨(compute_risk_branch_order ["445"] "Linux 5.4" "OFFLINE").2.1 rfl,
   (compute_risk_branch_order ["445"] "Linux 5.4" "OFFLINE").1 true rfl,
   (compute_risk_branch_order ["445"] "Linux 5.4" "ONLINE").2.2.1 (by decide)
     ⟨"445", by decide, by decide⟩⟩

/-- C2: with no prior baseline entry, `diff_and_emit_events` emits exactly
one event, of kind NEW_DEVICE, with severity equal to the record's current
risk, and nothing else. -/
theorem new_device_event_exactly_one (curr : Record) :
    diff_and_emit_events curr none = [⟨"NEW_DEVICE", curr.risk, [], []⟩] := rfl

/-- C3: for a quarantined device, `compute_risk` returns CRITICAL whatever
the ports, OS or lifecycle state; the record the scan cycle builds for it
has risk CRITICAL; and the risk it carries in the published snapshot is
still CRITICAL after the offline sweep and the end-of-cycle OFFLINE risk
adjustment, which never touches a quarantined record. -/
theorem quarantined_risk_always_critical (qstore : QStore) (ip : String)
    (mac : Option String) (ports : List String) (os vendor hostname : String)
    (ne now offA : Nat) (prev : Option Record)
    (h : is_quarantined qstore ip mac = true) :
    (∀ (ports2 : List String) (os2 st : String),
      compute_risk ports2 os2 st true = "CRITICAL") ∧
    (scan_device qstore ip mac ports os vendor hostname ne).risk = "CRITICAL" ∧
    (offline_adjust
      (sweep_device now offA (scan_device qstore ip mac ports os vendor hostname ne)
        prev).1).risk = "CRITICAL" ∧
    (∀ r : Record, r.quarantined = true → offline_adjust r = r) := by
  have hcrit : ∀ (ports2 : List String) (os2 st : String),
      compute_risk ports2 os2 st true = "CRITICAL" := by
    intro ports2 os2 st
    simp [compute_risk]
  have hadj : ∀ r : Record, r.quarantined = true → offline_adjust r = r := by
    intro r hr
    simp [offline_adjust, hr]
  refine ⟨hcrit, ?_, ?_, hadj⟩
  · simp [scan_device, h, hcrit]
  · have hq : (scan_device qstore ip mac ports os vendor hostname ne).quarantined
        = true := by simp [scan_device, h]
    have hrisk : (scan_device qstore ip mac ports os vendor hostname ne).risk
        = "CRITICAL" := by simp [scan_device, h, hcrit]
    set d := scan_device qstore ip mac ports os vendor hostname ne with hd
    have hsw : ((sweep_device now offA d prev).1.quarantined = true) ∧
        ((sweep_device now offA d prev).1.risk = "CRITICAL") := by
      unfold sweep_device
      split
      · cases prev with
        | some p => exact ⟨hq, hrisk⟩
        | none => exact ⟨hq, hrisk⟩
      · exact ⟨hq, hrisk⟩
    rw [hadj _ hsw.1]
    exact hsw.2

/-- C3 witnessed: a device quarantined under its IP-based key, with no
risky port, a known OS and never swept offline, is published CRITICAL. -/
theorem quarantined_risk_always_critical_witness :
    (scan_device [("IP:10.0.0.5", ⟨"t", "10.0.0.5", "", "manual", ""⟩)]
      "10.0.0.5" none [] "Linux 5.4" "Acme" "host" 0).risk = "CRITICAL" :=
  (quarantined_risk_always_critical
    [("IP:10.0.0.5", ⟨"t", "10.0.0.5", "", "manual", ""⟩)]
    "10.0.0.5" none [] "Linux 5.4" "Acme" "host" 0 0 0 none (by decide)).2.1

/-- C5: `api_ips_quarantine` with both identifiers empty returns a 400
validation error and changes neither the firewall nor the quarantine
store; and whenever the firewall block call fails, the call returns a 400
with the block call's error message, and no quarantine record is
persisted. -/
theorem quarantine_validation_and_enforcement_errors
    (isRoot hasIpt : Bool) (now ip mac reason : String)
    (fw : Firewall) (q : QStore) :
    (ip = "" ∧ mac = "" →
      api_ips_quarantine isRoot hasIpt now ip mac reason fw q
        = (⟨false, 400, "Missing ip/mac"⟩, fw, q)) ∧
    (ip ≠ "" → (ips_block_ip isRoot hasIpt fw ip).1 = false →
      (api_ips_quarantine isRoot hasIpt now ip mac reason fw q).1
          = ⟨false, 400, (ips_block_ip isRoot hasIpt fw ip).2.1⟩ ∧
        (api_ips_quarantine isRoot hasIpt now ip mac reason fw q).2.2 = q) := by
  constructor
  · intro hb
    simp [api_ips_quarantine, hb.1, hb.2]
  · intro hip hfail
    have hcond : ¬ (ip = "" ∧ mac = "") := fun hb => hip hb.1
    constructor
    · simp [api_ips_quarantine, hcond, hip, hfail]
    · simp [api_ips_quarantine, hcond, hip, hfail]

/-- C5 witnessed: the empty-identifiers call is rejected unchanged, and a
non-root call for a concrete address fails with the privilege message and
leaves the store empty. -/
theorem quarantine_validation_and_enforcement_errors_witness :
    (api_ips_quarantine false true "t" "" "" "r" ⟨[], []⟩ []
        = (⟨false, 400, "Missing ip/mac"⟩, ⟨[], []⟩, [])) ∧
    (api_ips_quarantine false true "t" "10.0.0.7" "" "r" ⟨[], []⟩ []).1
        = ⟨false, 400, "Must run as root (sudo) to apply firewall rules."⟩ ∧
    (api_ips_quarantine false true "t" "10.0.0.7" "" "r" ⟨[], []⟩ []).2.2 = [] :=
  ⟨(quarantine_validation_and_enforcement_errors false true "t" "" "" "r"
      ⟨[], []⟩ []).1 ⟨rfl, rfl⟩,
   ((quarantine_validation_and_enforcement_errors false true "t" "10.0.0.7" "" "r"
      ⟨[], []⟩ []).2 (by decide) (by decide)).1,
   ((quarantine_validation_and_enforcement_errors false true "t" "10.0.0.7" "" "r"
      ⟨[], []⟩ []).2 (by decide) (by decide)).2⟩

/-- C6: `api_ips_unquarantine` with at least one identifier always removes
the persisted record under the request's key, whatever the root/iptables
situation — even when the firewall rule removal fails. -/
theorem unquarantine_always_deletes_record (isRoot hasIpt : Bool)
    (ip mac : String) (fw : Firewall) (q : QStore)
    (h : ¬ (ip = "" ∧ mac = "")) :
    qmem (api_ips_unquarantine isRoot hasIpt ip mac fw q).2.2
      (if mac ≠ "" then mac.toUpper else "IP:" ++ ip) = false := by
  have hpop : ∀ (q2 : QStore) (k : String), qmem (qpop q2 k) k = false := by
    intro q2 k
    simp [qmem, qkeys, qpop]
  have hred : (api_ips_unquarantine isRoot hasIpt ip mac fw q).2.2
      = qpop q (if mac ≠ "" then mac.toUpper else "IP:" ++ ip) := by
    simp [api_ips_unquarantine, h]
  rw [hred]
  exact hpop q _

/-- C6 witnessed: unquarantining a concrete address without root and
without iptables still deletes the persisted record for its key. -/
theorem unquarantine_always_deletes_record_witness :
    qmem (api_ips_unquarantine false false "10.0.0.5" ""
        ⟨["10.0.0.5"], ["10.0.0.5"]⟩
        [("IP:10.0.0.5", ⟨"t", "10.0.0.5", "", "manual", ""⟩)]).2.2
      "IP:10.0.0.5" = false := by
  have h := unquarantine_always_deletes_record false false "10.0.0.5" ""
    ⟨["10.0.0.5"], ["10.0.0.5"]⟩
    [("IP:10.0.0.5", ⟨"t", "10.0.0.5", "", "manual", ""⟩)] (by decide)
  simpa using h

/-- C10: for a non-empty address and an absent-or-non-empty hardware
address, `is_quarantined` returns true exactly when the store holds the
uppercased mac as a key or holds the key `"IP:"+ip`; in particular an
IP-keyed quarantine marks a mac-bearing observation as quarantined, and a
mac-keyed quarantine is seen whatever key the inventory record uses. -/
theorem is_quarantined_key_spec (q : QStore) (ip : String) (mac : Option String)
    (hip : ip ≠ "") (hmac : ∀ m, mac = some m → m ≠ "") :
    (is_quarantined q ip mac = true ↔
      (∃ m, mac = some m ∧ qmem q m.toUpper = true) ∨
        qmem q ("IP:" ++ ip) = true) ∧
    (qmem q ("IP:" ++ ip) = true → is_quarantined q ip mac = true) ∧
    (∀ m, mac = some m → qmem q m.toUpper = true →
      is_quarantined q ip mac = true) := by
  have hiff : is_quarantined q ip mac = true ↔
      (∃ m, mac = some m ∧ qmem q m.toUpper = true) ∨
        qmem q ("IP:" ++ ip) = true := by
    cases mac with
    | none => simp [is_quarantined, hip]
    | some m =>
      have hm : m ≠ "" := hmac m rfl
      simp [is_quarantined, hip, hm]
  refine ⟨hiff, fun h => hiff.mpr (Or.inr h), fun m hm h => hiff.mpr (Or.inl ⟨m, hm, h⟩)⟩

/-- C10 witnessed: with only the key `IP:10.0.0.5` persisted, the check
still reports a record carrying that ip and a mac as quarantined. -/
theorem is_quarantined_key_spec_witness :
    is_quarantined [("IP:10.0.0.5", ⟨"t", "10.0.0.5", "", "manual", ""⟩)]
      "10.0.0.5" (some "aa:bb:cc:dd:ee:ff") = true :=
  (is_quarantined_key_spec [("IP:10.0.0.5", ⟨"t", "10.0.0.5", "", "manual", ""⟩)]
      "10.0.0.5" (some "aa:bb:cc:dd:ee:ff") (by decide)
      (fun m hm => by cases hm; decide)).2.1 (by decide)

/-- Keys of the store are unchanged when `qset` overwrites an existing
key. -/
theorem qkeys_qset_mem (q : QStore) (k : String) (v : QRec)
    (h : qmem q k = true) : qkeys (qset q k v) = qkeys q := by
  simp only [qset, h, if_pos, qkeys, List.map_map]
  refine List.map_congr_left ?_
  intro p _
  by_cases hp : p.1 = k
  · simp [hp]
  · simp [hp]

/-- Writing with `qset` on a fresh key appends that key. -/
theorem qkeys_qset_not_mem (q : QStore) (k : String) (v : QRec)
    (h : qmem q k = false) : qkeys (qset q k v) = qkeys q ++ [k] := by
  simp [qset, h, qkeys]

/-- Membership in the store is membership among its keys. -/
theorem qmem_iff (q : QStore) (k : String) : qmem q k = true ↔ k ∈ qkeys q := by
  simp [qmem]

/-- After `qset` on a store whose keys are distinct, exactly one entry
carries the written key. -/
theorem qset_count_one (q : QStore) (k : String) (v : QRec)
    (h : (qkeys q).Nodup) : (qkeys (qset q k v)).count k = 1 := by
  by_cases hm : qmem q k = true
  · rw [qkeys_qset_mem q k v hm]
    exact List.count_eq_one_of_mem h ((qmem_iff q k).mp hm)
  · rw [qkeys_qset_not_mem q k v (by simpa using hm)]
    rw [List.count_append]
    have hnm : k ∉ qkeys q := fun hk => hm ((qmem_iff q k).mpr hk)
    simp [List.count_eq_zero_of_not_mem hnm]

/-- Blocking as root with iptables and no pre-existing rule inserts
one DROP rule at the head of each chain and succeeds. -/
theorem ips_block_ip_fresh (fw : Firewall) (ip : String) (hip : ip ≠ "")
    (h1 : ip ∉ fw.input) (h2 : ip ∉ fw.forward) :
    ips_block_ip true true fw ip = (true, "Quarantined from Pi (iptables DROP).",
      ⟨ip :: fw.input, ip :: fw.forward⟩) := by
  simp [ips_block_ip, iptables_rule_exists, hip, h1, h2]

/-- Blocking as root with iptables leaves the firewall unchanged
when both chains already hold the rule. -/
theorem ips_block_ip_existing (fw : Firewall) (ip : String) (hip : ip ≠ "")
    (h1 : ip ∈ fw.input) (h2 : ip ∈ fw.forward) :
    ips_block_ip true true fw ip = (true, "Quarantined from Pi (iptables DROP).", fw) := by
  simp [ips_block_ip, iptables_rule_exists, hip, h1, h2]

/-- C4: quarantining the same non-empty address twice (as root, iptables
present, no pre-existing rule) succeeds both times, leaves exactly one
DROP rule per chain for that address, and exactly one persisted record
under the device's key. -/
theorem quarantine_twice_idempotent (now ip mac reason : String) (fw : Firewall)
    (q : QStore) (key : String) (r1 r2 : ApiOut × Firewall × QStore)
    (hip : ip ≠ "") (hnodup : (qkeys q).Nodup)
    (h1 : ip ∉ fw.input) (h2 : ip ∉ fw.forward)
    (hkey : key = if mac ≠ "" then mac.toUpper else "IP:" ++ ip)
    (hr1 : r1 = api_ips_quarantine true true now ip mac reason fw q)
    (hr2 : r2 = api_ips_quarantine true true now ip mac reason r1.2.1 r1.2.2) :
    r1.1.ok = true ∧ r2.1.ok = true ∧
    r2.2.1.input.count ip = 1 ∧ r2.2.1.forward.count ip = 1 ∧
    (qkeys r2.2.2).count key = 1 := by
  have hcond : ¬ (ip = "" ∧ mac = "") := fun hb => hip hb.1
  have e1 : r1 = (⟨true, 200, "Quarantined from Pi (iptables DROP)."⟩,
      ⟨ip :: fw.input, ip :: fw.forward⟩,
      qset q key ⟨now, ip, mac, if reason = "" then "manual" else reason, ""⟩) := by
    rw [hr1, hkey]
    simp [api_ips_quarantine, hcond, hip, ips_block_ip_fresh fw ip hip h1 h2]
  have hq1 : (qkeys r1.2.2).count key = 1 := by
    rw [e1]
    exact qset_count_one q key _ hnodup
  have hq1mem : qmem r1.2.2 key = true := by
    rw [qmem_iff]
    have : 0 < (qkeys r1.2.2).count key := by omega
    exact List.count_pos_iff.mp this
  have e2 : r2 = (⟨true, 200, "Quarantined from Pi (iptables DROP)."⟩,
      r1.2.1,
      qset r1.2.2 key ⟨now, ip, mac, if reason = "" then "manual" else reason, ""⟩) := by
    rw [hr2, hkey]
    have hfw1 : ip ∈ r1.2.1.input := by rw [e1]; exact List.mem_cons_self ip _
    have hfw2 : ip ∈ r1.2.1.forward := by rw [e1]; exact List.mem_cons_self ip _
    simp [api_ips_quarantine, hcond, hip,
      ips_block_ip_existing r1.2.1 ip hip hfw1 hfw2]
  refine ⟨by rw [e1], by rw [e2], ?_, ?_, ?_⟩
  · rw [e2, e1]
    simp [List.count_cons_self, List.count_eq_zero_of_not_mem h1]
  · rw [e2, e1]
    simp [List.count_cons_self, List.count_eq_zero_of_not_mem h2]
  · rw [e2, qkeys_qset_mem _ _ _ hq1mem]
    exact hq1

/-- C4 witnessed at a concrete address on an empty firewall and store. -/
theorem quarantine_twice_idempotent_witness :
    ((api_ips_quarantine true true "t" "10.0.0.5" "" "manual" ⟨[], []⟩ []).1.ok = true) ∧
    (let r1 := api_ips_quarantine true true "t" "10.0.0.5" "" "manual" ⟨[], []⟩ []
     let r2 := api_ips_quarantine true true "t" "10.0.0.5" "" "manual" r1.2.1 r1.2.2
     r2.2.1.input.count "10.0.0.5" = 1 ∧ (qkeys r2.2.2).count "IP:10.0.0.5" = 1) := by
  have h := quarantine_twice_idempotent "t" "10.0.0.5" "" "manual" ⟨[], []⟩ []
    "IP:10.0.0.5"
    (api_ips_quarantine true true "t" "10.0.0.5" "" "manual" ⟨[], []⟩ [])
    (api_ips_quarantine true true "t" "10.0.0.5" "" "manual"
      (api_ips_quarantine true true "t" "10.0.0.5" "" "manual" ⟨[], []⟩ []).2.1
      (api_ips_quarantine true true "t" "10.0.0.5" "" "manual" ⟨[], []⟩ []).2.2)
    (by decide) (by decide) (by decide) (by decide) (by decide) rfl rfl
  exact ⟨h.1, h.2.2.1, h.2.2.2.2⟩

/-- Membership in the modelled `sorted(a_set - b_set)`. -/
theorem mem_pySortedSetDiff (a b : List String) (x : String) :
    x ∈ pySortedSetDiff a b ↔ x ∈ a ∧ x ∉ b := by
  unfold pySortedSetDiff
  rw [(List.perm_insertionSort _ _).mem_iff]
  simp

/-- The modelled `sorted(a_set - b_set)` is ascending. -/
theorem sorted_pySortedSetDiff (a b : List String) :
    List.Sorted (fun x y : String => x ≤ y) (pySortedSetDiff a b) :=
  List.sorted_insertionSort _ _

/-- Filtering for a kind no conditional singleton chunk carries gives
nothing. -/
theorem filter_kind_nil (c : Prop) [Decidable c] (e : Event) (k : String)
    (h : (e.kind == k) = false) :
    List.filter (fun x => x.kind == k) (if c then [e] else []) = [] := by
  split
  · simp [List.filter, h]
  · rfl

/-- C7: whenever the port sets differ and the current state is not
OFFLINE, the diff emits exactly one PORT_CHANGE event; its added and
removed lists are the sorted set differences, and it is CRITICAL exactly
when some added port is in the CRITICAL-risk port set (else MEDIUM).  At
baseline ports {22,80} vs current {22,445} this is PORT_CHANGE,
added=[445], removed=[80], severity CRITICAL. -/
theorem port_change_event_spec (prev curr : Record)
    (hports : prev.ports.toFinset ≠ curr.ports.toFinset)
    (hstate : curr.state ≠ "OFFLINE") :
    (∃ ev : Event,
      (diff_and_emit_events curr (some prev)).filter
          (fun e => e.kind == "PORT_CHANGE") = [ev] ∧
      List.Sorted (fun x y : String => x ≤ y) ev.added ∧
      (∀ p : String, p ∈ ev.added ↔ p ∈ curr.ports ∧ p ∉ prev.ports) ∧
      List.Sorted (fun x y : String => x ≤ y) ev.removed ∧
      (∀ p : String, p ∈ ev.removed ↔ p ∈ prev.ports ∧ p ∉ curr.ports) ∧
      (ev.severity = "CRITICAL" ↔ ∃ p ∈ ev.added, p ∈ RISKY_PORTS_CRITICAL) ∧
      (ev.severity = "CRITICAL" ∨ ev.severity = "MEDIUM")) ∧
    (diff_and_emit_events
        ⟨"ONLINE", "LOW", ["22", "445"], "Acme", "host", "Linux 5.4", false, 0⟩
        (some ⟨"ONLINE", "LOW", ["22", "80"], "Acme", "host", "Linux 5.4", false, 0⟩)).filter
        (fun e => e.kind == "PORT_CHANGE")
      = [⟨"PORT_CHANGE", "CRITICAL", ["445"], ["80"]⟩] := by
  have hdiff : (diff_and_emit_events curr (some prev)).filter
      (fun e => e.kind == "PORT_CHANGE")
      = [⟨"PORT_CHANGE",
          if (pySortedSetDiff curr.ports prev.ports).any
              (fun p => RISKY_PORTS_CRITICAL.contains p) then "CRITICAL" else "MEDIUM",
          pySortedSetDiff curr.ports prev.ports,
          pySortedSetDiff prev.ports curr.ports⟩] := by
    simp only [diff_and_emit_events, List.filter_append]
    rw [if_pos (show prev.ports.toFinset ≠ curr.ports.toFinset ∧
      curr.state ≠ "OFFLINE" from ⟨hports, hstate⟩)]
    split_ifs <;> rfl
  constructor
  · refine ⟨⟨"PORT_CHANGE",
      if (pySortedSetDiff curr.ports prev.ports).any
          (fun p => RISKY_PORTS_CRITICAL.contains p) then "CRITICAL" else "MEDIUM",
      pySortedSetDiff curr.ports prev.ports,
      pySortedSetDiff prev.ports curr.ports⟩,
      hdiff, sorted_pySortedSetDiff _ _, fun p => mem_pySortedSetDiff _ _ p,
      sorted_pySortedSetDiff _ _, fun p => mem_pySortedSetDiff _ _ p, ?_, ?_⟩
    · by_cases hc : (pySortedSetDiff curr.ports prev.ports).any
          (fun p => RISKY_PORTS_CRITICAL.contains p) = true
      · simp only [Event.severity, if_pos hc]
        exact ⟨fun _ => by simpa using hc, fun _ => by trivial⟩
      · simp only [Event.severity, if_neg hc]
        constructor
        · intro h
          exact absurd h (by decide)
        · intro hex
          exact absurd (by simpa using hex : (pySortedSetDiff curr.ports prev.ports).any
            (fun p => RISKY_PORTS_CRITICAL.contains p) = true) hc
    · by_cases hc : (pySortedSetDiff curr.ports prev.ports).any
          (fun p => RISKY_PORTS_CRITICAL.contains p) = true
      · left
        simp only [Event.severity, if_pos hc]
      · right
        simp only [Event.severity, if_neg hc]
  · decide

/-- C7 witnessed: the {22,80} → {22,445} pair satisfies the hypotheses and
yields the CRITICAL PORT_CHANGE. -/
theorem port_change_event_spec_witness :
    (diff_and_emit_events
        ⟨"ONLINE", "LOW", ["22", "445"], "Acme", "host", "Linux 5.4", false, 0⟩
        (some ⟨"ONLINE", "LOW", ["22", "80"], "Acme", "host", "Linux 5.4", false, 0⟩)).filter
        (fun e => e.kind == "PORT_CHANGE")
      = [⟨"PORT_CHANGE", "CRITICAL", ["445"], ["80"]⟩] :=
  (port_change_event_spec
    ⟨"ONLINE", "LOW", ["22", "80"], "Acme", "host", "Linux 5.4", false, 0⟩
    ⟨"ONLINE", "LOW", ["22", "445"], "Acme", "host", "Linux 5.4", false, 0⟩
    (by decide) (by decide)).2

/-- C8: when a device's elapsed time since last-seen reaches the offline
timeout, the end-of-cycle sweep flips it ONLINE→OFFLINE and emits exactly
one STATE_CHANGE of severity MEDIUM and nothing else; sweeping again never
re-fires (the transition happens exactly once); a later fresh observation
(state ONLINE, as every mid-cycle observation is) diffed against the
swept baseline emits exactly one more STATE_CHANGE, of severity INFO. -/
theorem offline_sweep_state_change (now offA : Nat) (d p : Record)
    (r : Record × Option Record × List Event)
    (hd : d.state = "ONLINE") (hp : p.state = "ONLINE")
    (helapsed : offA ≤ now - d.last_seen_epoch)
    (hr : r = sweep_device now offA d (some p)) :
    r.2.2 = [⟨"STATE_CHANGE", "MEDIUM", [], []⟩] ∧
    r.1.state = "OFFLINE" ∧
    (∀ now2 offA2 : Nat, sweep_device now2 offA2 r.1 r.2.1 = (r.1, r.2.1, [])) ∧
    (∀ curr2 : Record, curr2.state = "ONLINE" →
      (diff_and_emit_events curr2 r.2.1).filter (fun e => e.kind == "STATE_CHANGE")
        = [⟨"STATE_CHANGE", "INFO", [], []⟩]) ∧
    (∀ (qs : QStore) (ip : String) (mac : Option String) (ports : List String)
        (os vendor hostname : String) (ne : Nat),
      (scan_device qs ip mac ports os vendor hostname ne).state = "ONLINE") := by
  have hdo : d.state ≠ "OFFLINE" := by rw [hd]; decide
  have e1 : r = ({ d with state := "OFFLINE" }, some { p with state := "OFFLINE" },
      diff_and_emit_events { p with state := "OFFLINE" } (some p)) := by
    rw [hr]
    unfold sweep_device
    rw [if_pos ⟨helapsed, hdo⟩]
  have hev : diff_and_emit_events { p with state := "OFFLINE" } (some p)
      = [⟨"STATE_CHANGE", "MEDIUM", [], []⟩] := by
    simp [diff_and_emit_events, hp]
  refine ⟨by rw [e1]; exact hev, by rw [e1], ?_, ?_, ?_⟩
  · intro now2 offA2
    rw [e1]
    unfold sweep_device
    rw [if_neg]
    intro hcon
    exact hcon.2 rfl
  · intro curr2 hcur
    rw [e1]
    simp only [diff_and_emit_events, List.filter_append]
    rw [if_pos (show ({ p with state := "OFFLINE" } : Record).state ≠ curr2.state by
      rw [hcur]; exact (by decide : ("OFFLINE" : String) ≠ "ONLINE"))]
    rw [if_neg (show ¬ curr2.state = "OFFLINE" by rw [hcur]; decide)]
    split_ifs <;> rfl
  · intro qs ip mac ports os vendor hostname ne
    rfl

/-- C8 witnessed on a concrete ONLINE device 100s stale with a 60s
timeout: the sweep emits the single MEDIUM STATE_CHANGE, and the
re-observation diff emits the single INFO STATE_CHANGE. -/
theorem offline_sweep_state_change_witness :
    ((sweep_device 100 60 ⟨"ONLINE", "LOW", ["22"], "Acme", "host", "Linux 5.4", false, 0⟩
        (some ⟨"ONLINE", "LOW", ["22"], "Acme", "host", "Linux 5.4", false, 0⟩)).2.2
      = [⟨"STATE_CHANGE", "MEDIUM", [], []⟩]) ∧
    ((diff_and_emit_events ⟨"ONLINE", "LOW", ["22"], "Acme", "host", "Linux 5.4", false, 200⟩
        (sweep_device 100 60 ⟨"ONLINE", "LOW", ["22"], "Acme", "host", "Linux 5.4", false, 0⟩
          (some ⟨"ONLINE", "LOW", ["22"], "Acme", "host", "Linux 5.4", false, 0⟩)).2.1).filter
        (fun e => e.kind == "STATE_CHANGE")
      = [⟨"STATE_CHANGE", "INFO", [], []⟩]) := by
  have h := offline_sweep_state_change 100 60
    ⟨"ONLINE", "LOW", ["22"], "Acme", "host", "Linux 5.4", false, 0⟩
    ⟨"ONLINE", "LOW", ["22"], "Acme", "host", "Linux 5.4", false, 0⟩
    (sweep_device 100 60 ⟨"ONLINE", "LOW", ["22"], "Acme", "host", "Linux 5.4", false, 0⟩
      (some ⟨"ONLINE", "LOW", ["22"], "Acme", "host", "Linux 5.4", false, 0⟩))
    rfl rfl (by decide) rfl
  exact ⟨h.1, h.2.2.2.1 ⟨"ONLINE", "LOW", ["22"], "Acme", "host", "Linux 5.4", false, 200⟩ rfl⟩

/-- Unfolding `maxAcc` on a head candidate. -/
theorem maxAcc_cons (m : String × Int) (ms : List (String × Int)) :
    maxAcc (m :: ms) = max m.2 (maxAcc ms) := rfl

/-- Every candidate's accuracy is bounded by `maxAcc`. -/
theorem le_maxAcc : ∀ (ms : List (String × Int)), ∀ m ∈ ms, m.2 ≤ maxAcc ms := by
  intro ms
  induction ms with
  | nil =>
    intro m hm
    cases hm
  | cons a rest ih =>
    intro m hm
    rw [maxAcc_cons]
    rcases List.mem_cons.mp hm with h | h
    · subst h
      exact le_max_left _ _
    · exact le_trans (ih m h) (le_max_right _ _)

/-- When every remaining accuracy is at most the running best, the scan
keeps the running best. -/
theorem select_aux_ge : ∀ (ms : List (String × Int)) (best : Option String) (bacc : Int),
    maxAcc ms ≤ bacc → select_os_aux ms best bacc = best := by
  intro ms
  induction ms with
  | nil =>
    intro best bacc _
    rfl
  | cons a rest ih =>
    intro best bacc h
    rw [maxAcc_cons] at h
    obtain ⟨h1, h2⟩ := max_le_iff.mp h
    obtain ⟨n, acc⟩ := a
    unfold select_os_aux
    rw [if_neg (by simp only at h1; omega)]
    exact ih best bacc h2

/-- When some remaining accuracy beats the running best, the scan returns
the first candidate attaining the maximum accuracy. -/
theorem select_aux_lt : ∀ (ms : List (String × Int)) (best : Option String) (bacc : Int),
    -1 ≤ bacc → bacc < maxAcc ms →
    ∃ i : ℕ, ∃ hi : i < ms.length,
      select_os_aux ms best bacc = some (ms.get ⟨i, hi⟩).1 ∧
      (ms.get ⟨i, hi⟩).2 = maxAcc ms ∧
      ∀ (j : ℕ) (hj : j < ms.length), j < i → (ms.get ⟨j, hj⟩).2 < maxAcc ms := by
  intro ms
  induction ms with
  | nil =>
    intro best bacc hb h
    exfalso
    simp only [maxAcc, List.foldr_nil] at h
    omega
  | cons a rest ih =>
    intro best bacc hb h
    obtain ⟨n, acc⟩ := a
    rw [maxAcc_cons] at h
    simp only at h
    by_cases hrest : maxAcc rest ≤ acc
    · have hmax : maxAcc ((n, acc) :: rest) = acc := by
        rw [maxAcc_cons]
        simpa using max_eq_left hrest
      have hacc : bacc < acc := by
        rcases le_or_lt acc (maxAcc rest) with hle | hlt <;> omega
      refine ⟨0, by simp, ?_, by simpa using hmax.symm, ?_⟩
      · show select_os_aux ((n, acc) :: rest) best bacc = some n
        unfold select_os_aux
        rw [if_pos (by omega)]
        exact select_aux_ge rest (some n) acc hrest
      · intro j hj hj0
        exact absurd hj0 (Nat.not_lt_zero j)
    · push_neg at hrest
      have hmax : maxAcc ((n, acc) :: rest) = maxAcc rest := by
        rw [maxAcc_cons]
        simpa using max_eq_right (le_of_lt hrest)
      by_cases hstep : acc > bacc
      · obtain ⟨i, hi, hsel, hmx, hbefore⟩ := ih (some n) acc (by omega) hrest
        refine ⟨i + 1, by simpa using hi, ?_, ?_, ?_⟩
        · show select_os_aux ((n, acc) :: rest) best bacc = _
          unfold select_os_aux
          rw [if_pos hstep]
          exact hsel
        · rw [hmax]
          exact hmx
        · intro j hj hjlt
          rw [hmax]
          cases j with
          | zero => exact hrest
          | succ jj =>
            have hjj : jj < rest.length := by simpa using hj
            exact hbefore jj hjj (by omega)
      · push_neg at hstep
        obtain ⟨i, hi, hsel, hmx, hbefore⟩ := ih best bacc hb (by omega)
        refine ⟨i + 1, by simpa using hi, ?_, ?_, ?_⟩
        · show select_os_aux ((n, acc) :: rest) best bacc = _
          unfold select_os_aux
          rw [if_neg (by omega)]
          exact hsel
        · rw [hmax]
          exact hmx
        · intro j hj hjlt
          rw [hmax]
          cases j with
          | zero =>
            show acc < maxAcc rest
            omega
          | succ jj =>
            have hjj : jj < rest.length := by simpa using hj
            exact hbefore jj hjj (by omega)

/-- C9: over any candidate list with a non-trivial maximum accuracy, the
`osmatch` scan resolves to the first candidate attaining the maximum
accuracy — every accuracy is at most the maximum, the selected index
attains it, every earlier candidate is strictly below it (so ties keep the
first encountered) — and when that winner's name is non-empty the final
`os_guess` is exactly that name. -/
theorem os_guess_highest_confidence_first (ms : List (String × Int))
    (h : -1 < maxAcc ms) :
    (∀ m ∈ ms, m.2 ≤ maxAcc ms) ∧
    ∃ i : ℕ, ∃ hi : i < ms.length,
      select_os ms = some (ms.get ⟨i, hi⟩).1 ∧
      (ms.get ⟨i, hi⟩).2 = maxAcc ms ∧
      (∀ (j : ℕ) (hj : j < ms.length), j < i → (ms.get ⟨j, hj⟩).2 < maxAcc ms) ∧
      ((ms.get ⟨i, hi⟩).1 ≠ "" → os_guess_of ms = (ms.get ⟨i, hi⟩).1) := by
  obtain ⟨i, hi, hsel, hmx, hbefore⟩ := select_aux_lt ms none (-1) le_rfl h
  refine ⟨le_maxAcc ms, i, hi, hsel, hmx, hbefore, fun hne => ?_⟩
  show os_guess_of ms = _
  unfold os_guess_of
  rw [show select_os ms = some (ms.get ⟨i, hi⟩).1 from hsel]
  simp [hne]
  intro h0
  exact absurd h0 (by simpa using hne)

/-- C9 witnessed on a tie: of two candidates with accuracy 95, the first
is selected. -/
theorem os_guess_highest_confidence_first_witness :
    (∀ m ∈ ([("Linux 4.15 - 5.6", 95), ("FreeBSD 12", 95), ("OpenBSD", 90)] :
        List (String × Int)),
      m.2 ≤ maxAcc [("Linux 4.15 - 5.6", 95), ("FreeBSD 12", 95), ("OpenBSD", 90)]) ∧
    (∃ i : ℕ, ∃ hi : i <
        ([("Linux 4.15 - 5.6", 95), ("FreeBSD 12", 95), ("OpenBSD", 90)] :
          List (String × Int)).length,
      select_os [("Linux 4.15 - 5.6", 95), ("FreeBSD 12", 95), ("OpenBSD", 90)]
          = some (([("Linux 4.15 - 5.6", 95), ("FreeBSD 12", 95), ("OpenBSD", 90)] :
            List (String × Int)).get ⟨i, hi⟩).1 ∧
        (([("Linux 4.15 - 5.6", 95), ("FreeBSD 12", 95), ("OpenBSD", 90)] :
          List (String × Int)).get ⟨i, hi⟩).2
          = maxAcc [("Linux 4.15 - 5.6", 95), ("FreeBSD 12", 95), ("OpenBSD", 90)] ∧
        (∀ (j : ℕ) (hj : j <
            ([("Linux 4.15 - 5.6", 95), ("FreeBSD 12", 95), ("OpenBSD", 90)] :
              List (String × Int)).length), j < i →
          (([("Linux 4.15 - 5.6", 95), ("FreeBSD 12", 95), ("OpenBSD", 90)] :
            List (String × Int)).get ⟨j, hj⟩).2
            < maxAcc [("Linux 4.15 - 5.6", 95), ("FreeBSD 12", 95), ("OpenBSD", 90)]) ∧
        ((([("Linux 4.15 - 5.6", 95), ("FreeBSD 12", 95), ("OpenBSD", 90)] :
            List (String × Int)).get ⟨i, hi⟩).1 ≠ "" →
          os_guess_of [("Linux 4.15 - 5.6", 95), ("FreeBSD 12", 95), ("OpenBSD", 90)]
            = (([("Linux 4.15 - 5.6", 95), ("FreeBSD 12", 95), ("OpenBSD", 90)] :
              List (String × Int)).get ⟨i, hi⟩).1)) :=
  os_guess_highest_confidence_first
    [("Linux 4.15 - 5.6", 95), ("FreeBSD 12", 95), ("OpenBSD", 90)] (by decide)

end SocPi
